import Mathlib

/-!
Shallow embedding of the parallel adsorbate pipeline orchestrator
(`script.py`): the per-item pipeline executor `run_adsorbate_pipeline`
and the batch dispatcher `run_adsorbate_list_parallel`.

The collaborator subsystems imported from `model.neb` are opaque to the
orchestrator; they are modelled as an environment `Env` of fallible
functions (`Except String`), each threading an explicit filesystem state
`FS` where the real collaborator performs I/O.  The orchestrator's own
observable behaviour (which collaborators it invokes, with which
configuration arguments, in which order, and what it prints on failure)
is recorded as a trace of `Event`s.  Worker processes share no mutable
state; each pool worker is modelled as running against the filesystem
state as of dispatch time, matching the by-value process model.
-/

set_option autoImplicit false

/-- Opaque raw molecular structure returned by `init_molecule`. -/
structure RawStructure where
  id : Nat
deriving DecidableEq

/-- Opaque relaxed structure returned by `opt_molecule`. -/
structure RelaxedStructure where
  id : Nat
deriving DecidableEq

/-- Opaque relaxed slab returned by `opt_slab`. -/
structure Slab where
  id : Nat
deriving DecidableEq

/-- Opaque persisted collection of per-site screening outcomes. -/
structure ScreeningResults where
  id : Nat
deriving DecidableEq

/-- Opaque ranked ordering returned by `best_site_results` (the `df_sorted`). -/
structure RankedList where
  id : Nat
deriving DecidableEq

/-- Opaque best adsorption site returned by `best_site_results`. -/
structure Site where
  id : Nat
deriving DecidableEq

/-- Opaque endpoint structure returned by the endpoint-selection collaborators. -/
structure Structure where
  id : Nat
deriving DecidableEq

/-- Opaque interpolated image chain returned by `prepare_neb_calculation`. -/
structure ImageChain where
  id : Nat
deriving DecidableEq

/-- Opaque path-search outcome returned by `prepare_neb_calculation`. -/
structure PathResult where
  id : Nat
deriving DecidableEq

/-- The success payload of one item: `{"translation": result_t, "rotation": result_r}`.
The dict literal in the source always carries both keys, so the type has both
fields; `Option TaskResult` is the `TaskResult | None` return of the executor. -/
structure TaskResult where
  translation : PathResult
  rotation : PathResult
deriving DecidableEq

/-- The barrier kind tag passed as `barrier_type` to `prepare_neb_calculation`. -/
inductive BarrierKind where
  | translation
  | rotation
deriving DecidableEq

/-- Filesystem state: the set of existing directories and a store of
persisted files (path, opaque content id). -/
structure FS where
  dirs : List String
  files : List (String × Nat)
deriving DecidableEq

/-- Model of `os.path.join` on the relative components used by the script. -/
def pathJoin (a b : String) : String := a ++ "/" ++ b

/-- Model of `os.makedirs(path, exist_ok=...)`: an existing directory is an
error unless `exist_ok` is set; otherwise the directory is added. -/
def makedirs (fs : FS) (path : String) (exist_ok : Bool) : Except String FS :=
  if path ∈ fs.dirs then
    if exist_ok then Except.ok fs else Except.error "FileExistsError"
  else
    Except.ok { fs with dirs := path :: fs.dirs }

/-- The `ads_dir = os.path.join(base_dir, ads_name)` of the script. -/
def ads_dir_of (base_dir ads_name : String) : String := pathJoin base_dir ads_name

/-- The screening workspace subdirectory `Screening_Data`. -/
def screening_dir_of (base_dir ads_name : String) : String :=
  pathJoin (ads_dir_of base_dir ads_name) "Screening_Data"

/-- The translation-path workspace subdirectory `NEB_Translation`. -/
def neb_trans_dir_of (base_dir ads_name : String) : String :=
  pathJoin (ads_dir_of base_dir ads_name) "NEB_Translation"

/-- The rotation-path workspace subdirectory `NEB_Rotation`. -/
def neb_rot_dir_of (base_dir ads_name : String) : String :=
  pathJoin (ads_dir_of base_dir ads_name) "NEB_Rotation"

/-- Trace of observable orchestrator actions: each collaborator invocation is
recorded with the configuration arguments the orchestrator passed, and the
per-item error print is recorded with the item identity. -/
inductive Event where
  | screenCall (center_xy : String) (use_all_sites : Bool) (workdir : String)
  | validateCall (workdir : String)
  | cleanCall (workdir : String) (dry_run : Bool)
  | recoverCall (workdir : String)
  | loadCall (path : String)
  | bestSiteCall (sr : ScreeningResults)
  | selectTransCall (best : Site) (sr : ScreeningResults)
  | selectRotCall (best : Site) (sr : ScreeningResults) (angle : Nat)
  | prepareCall (n_images : Nat) (barrier : BarrierKind) (workdir : String)
  | errorLog (ads_name : String) (msg : String)
  | poolMsg (count : Nat) (cores : Nat)
deriving DecidableEq

/-- Environment of opaque collaborator subsystems (`model.neb`).  Each may
fail (a raised exception is an `Except.error`); the ones that perform I/O
thread the filesystem state. -/
structure Env where
  cpu_count : Nat
  opt_slab : Except String Slab
  init_molecule : String → Except String RawStructure
  opt_molecule : RawStructure → Except String RelaxedStructure
  site_screening : Slab → RelaxedStructure → String → Bool → String → FS →
    Except String (ScreeningResults × FS)
  validate_screening_files : String → FS → Except String FS
  clean_incomplete_files : String → Bool → FS → Except String FS
  recover_screening_files : String → FS → Except String FS
  load_screening_results : String → FS → Except String ScreeningResults
  best_site_results : ScreeningResults → Except String (RankedList × Site)
  select_neb_endpoints_translation : Site → ScreeningResults →
    Except String (Structure × Structure)
  select_neb_endpoints_rotation : Site → ScreeningResults → Nat →
    Except String (Structure × Structure)
  prepare_neb_calculation : Structure → Structure → Nat → BarrierKind → String → FS →
    Except String ((ImageChain × PathResult) × FS)

/-- The three `os.makedirs(..., exist_ok=True)` calls at the top of
`run_adsorbate_pipeline`, in source order. -/
def workspace_setup (base_dir ads_name : String) (fs : FS) : Except String FS :=
  match makedirs fs (screening_dir_of base_dir ads_name) true with
  | Except.error e => Except.error e
  | Except.ok fs1 =>
    match makedirs fs1 (neb_trans_dir_of base_dir ads_name) true with
    | Except.error e => Except.error e
    | Except.ok fs2 => makedirs fs2 (neb_rot_dir_of base_dir ads_name) true

/-- The body of the `try:` block of `run_adsorbate_pipeline`: the twelve
stages in source order.  Returns the stage outcome, the filesystem state
reached (effects before a fault persist), and the trace of calls made.
Note the raw in-memory screening result `_screening_raw` is bound and then
deliberately shadowed by the post-recovery reload, exactly as the source
rebinds `screening_results`. -/
def pipeline_body (env : Env) (ads_name base_dir : String) (fs : FS) :
    Except String TaskResult × FS × List Event :=
  let sdir := screening_dir_of base_dir ads_name
  let tdir := neb_trans_dir_of base_dir ads_name
  let rdir := neb_rot_dir_of base_dir ads_name
  match workspace_setup base_dir ads_name fs with
  | Except.error e => (Except.error e, fs, [])
  | Except.ok fs1 =>
    match env.opt_slab with
    | Except.error e => (Except.error e, fs1, [])
    | Except.ok slab =>
      match env.init_molecule ads_name with
      | Except.error e => (Except.error e, fs1, [])
      | Except.ok raw =>
        match env.opt_molecule raw with
        | Except.error e => (Except.error e, fs1, [])
        | Except.ok ads =>
          let t1 := [Event.screenCall "site" true sdir]
          match env.site_screening slab ads "site" true sdir fs1 with
          | Except.error e => (Except.error e, fs1, t1)
          | Except.ok srfs =>
            let _screening_raw := srfs.1
            let fs2 := srfs.2
            let t2 := t1 ++ [Event.validateCall sdir]
            match env.validate_screening_files sdir fs2 with
            | Except.error e => (Except.error e, fs2, t2)
            | Except.ok fs3 =>
              let t3 := t2 ++ [Event.cleanCall sdir false]
              match env.clean_incomplete_files sdir false fs3 with
              | Except.error e => (Except.error e, fs3, t3)
              | Except.ok fs4 =>
                let t4 := t3 ++ [Event.recoverCall sdir]
                match env.recover_screening_files sdir fs4 with
                | Except.error e => (Except.error e, fs4, t4)
                | Except.ok fs5 =>
                  let t5 := t4 ++ [Event.loadCall (pathJoin sdir "screening_results.pkl")]
                  match env.load_screening_results (pathJoin sdir "screening_results.pkl") fs5 with
                  | Except.error e => (Except.error e, fs5, t5)
                  | Except.ok sr =>
                    let t6 := t5 ++ [Event.bestSiteCall sr]
                    match env.best_site_results sr with
                    | Except.error e => (Except.error e, fs5, t6)
                    | Except.ok rb =>
                      let best_site := rb.2
                      let t7 := t6 ++ [Event.selectTransCall best_site sr]
                      match env.select_neb_endpoints_translation best_site sr with
                      | Except.error e => (Except.error e, fs5, t7)
                      | Except.ok eps_t =>
                        let t8 := t7 ++ [Event.prepareCall 10 BarrierKind.translation tdir]
                        match env.prepare_neb_calculation eps_t.1 eps_t.2 10 BarrierKind.translation tdir fs5 with
                        | Except.error e => (Except.error e, fs5, t8)
                        | Except.ok irt =>
                          let result_t := irt.1.2
                          let fs6 := irt.2
                          let t9 := t8 ++ [Event.selectRotCall best_site sr 120]
                          match env.select_neb_endpoints_rotation best_site sr 120 with
                          | Except.error e => (Except.error e, fs6, t9)
                          | Except.ok eps_r =>
                            let t10 := t9 ++ [Event.prepareCall 10 BarrierKind.rotation rdir]
                            match env.prepare_neb_calculation eps_r.1 eps_r.2 10 BarrierKind.rotation rdir fs6 with
                            | Except.error e => (Except.error e, fs6, t10)
                            | Except.ok irr =>
                              let result_r := irr.1.2
                              let fs7 := irr.2
                              (Except.ok { translation := result_t, rotation := result_r }, fs7, t10)

/-- Model of `run_adsorbate_pipeline(ads_name, base_dir)`: the `try/except`
wrapper around the stage body.  A fault anywhere in the body is caught at
this outermost scope, printed with the item's identity (the `errorLog`
event), and converted to `(ads_name, None)`. -/
def run_adsorbate_pipeline (env : Env) (ads_name base_dir : String) (fs : FS) :
    (String × Option TaskResult) × FS × List Event :=
  match pipeline_body env ads_name base_dir fs with
  | (Except.ok tr, fs', tra) => ((ads_name, some tr), fs', tra)
  | (Except.error e, fs', tra) => ((ads_name, none), fs', tra ++ [Event.errorLog ads_name e])

/-- Python dict insertion on an association list: if the key is already
present its value is updated in place, otherwise the pair is appended.
This is the semantics of the comprehension `{ads: res for ads, res in
results_list}` executed pair by pair. -/
def dictInsert {α : Type} : List (String × α) → String → α → List (String × α)
  | [], k, v => [(k, v)]
  | p :: rest, k, v => if p.1 = k then (k, v) :: rest else p :: dictInsert rest k v

/-- The dict comprehension of `run_adsorbate_list_parallel`: fold the ordered
`(name, result)` pairs into a mapping, later pairs overwriting earlier ones. -/
def aggregate {α : Type} (pairs : List (String × α)) : List (String × α) :=
  pairs.foldl (fun m p => dictInsert m p.1 p.2) []

/-- Key lookup in the association-list mapping (Python `results[k]`). -/
def lookupKey {α : Type} : List (String × α) → String → Option α
  | [], _ => none
  | p :: rest, k => if p.1 = k then some p.2 else lookupKey rest k

/-- The payload of `os.makedirs(path, exist_ok=True)`, which never fails. -/
def mkdirs_exist_ok (fs : FS) (path : String) : FS :=
  if path ∈ fs.dirs then fs else { fs with dirs := path :: fs.dirs }

/-- Model of `run_adsorbate_list_parallel(adsorbate_list, base_dir, n_cores)`:
create `base_dir` idempotently, resolve the core count (default
`mp.cpu_count()`), map the partially-applied executor over the list with
`pool.map` (which returns results in input order; each worker process runs
against the dispatch-time filesystem state, sharing no mutable state), and
reduce the `(name, result)` pairs into the result mapping. -/
def run_adsorbate_list_parallel (env : Env) (adsorbate_list : List String)
    (base_dir : String) (n_cores : Option Nat) (fs : FS) :
    List (String × Option TaskResult) × List Event :=
  let fs0 := mkdirs_exist_ok fs base_dir
  let cores := match n_cores with
    | some c => c
    | none => env.cpu_count
  let results_list := adsorbate_list.map (fun ads => run_adsorbate_pipeline env ads base_dir fs0)
  let results := aggregate (results_list.map (fun r => r.1))
  (results, Event.poolMsg adsorbate_list.length cores :: (results_list.map (fun r => r.2.2)).flatten)

/-- Empty filesystem for concrete runs. -/
def fs0 : FS := { dirs := [], files := [] }

/-- A concrete environment in which every collaborator succeeds.  The
screening stage returns the in-memory results object `⟨1⟩` and writes the
persisted file; the post-recovery reload returns a distinct object `⟨2⟩`,
so a consumer of the raw in-memory object is distinguishable from a
consumer of the reloaded one. -/
def envOk : Env where
  cpu_count := 4
  opt_slab := Except.ok ⟨0⟩
  init_molecule := fun _ => Except.ok ⟨1⟩
  opt_molecule := fun _ => Except.ok ⟨2⟩
  site_screening := fun _ _ _ _ w fs =>
    Except.ok (⟨1⟩, { fs with files := (pathJoin w "screening_results.pkl", 1) :: fs.files })
  validate_screening_files := fun _ fs => Except.ok fs
  clean_incomplete_files := fun _ _ fs => Except.ok fs
  recover_screening_files := fun _ fs => Except.ok fs
  load_screening_results := fun _ _ => Except.ok ⟨2⟩
  best_site_results := fun _ => Except.ok (⟨0⟩, ⟨0⟩)
  select_neb_endpoints_translation := fun _ _ => Except.ok (⟨1⟩, ⟨2⟩)
  select_neb_endpoints_rotation := fun _ _ _ => Except.ok (⟨3⟩, ⟨4⟩)
  prepare_neb_calculation := fun _ _ _ k _ fs =>
    Except.ok ((⟨0⟩, match k with
      | BarrierKind.translation => ⟨10⟩
      | BarrierKind.rotation => ⟨20⟩), fs)

/-- Environment whose slab optimization raises. -/
def envFail : Env := { envOk with opt_slab := Except.error "boom" }

/-- Environment in which every stage succeeds except the rotation
path-search invocation, which raises. -/
def envRotFail : Env :=
  { envOk with
    prepare_neb_calculation := fun _ _ _ k _ fs =>
      match k with
      | BarrierKind.translation => Except.ok ((⟨0⟩, ⟨10⟩), fs)
      | BarrierKind.rotation => Except.error "rotation failed" }

theorem makedirs_exist_ok_eq (fs : FS) (p : String) :
    makedirs fs p true = Except.ok (mkdirs_exist_ok fs p) := by
  unfold makedirs mkdirs_exist_ok
  split <;> rfl

theorem mem_mkdirs_self (fs : FS) (p : String) : p ∈ (mkdirs_exist_ok fs p).dirs := by
  unfold mkdirs_exist_ok
  split
  · assumption
  · exact List.mem_cons_self p fs.dirs

theorem mem_mkdirs_of_mem {fs : FS} {q : String} (p : String) (h : q ∈ fs.dirs) :
    q ∈ (mkdirs_exist_ok fs p).dirs := by
  unfold mkdirs_exist_ok
  split
  · exact h
  · exact List.mem_cons_of_mem p h

theorem mkdirs_of_mem {fs : FS} {p : String} (h : p ∈ fs.dirs) :
    mkdirs_exist_ok fs p = fs := by
  unfold mkdirs_exist_ok
  simp [h]

theorem workspace_setup_eq (base_dir ads_name : String) (fs : FS) :
    workspace_setup base_dir ads_name fs =
      Except.ok (mkdirs_exist_ok (mkdirs_exist_ok (mkdirs_exist_ok fs
        (screening_dir_of base_dir ads_name)) (neb_trans_dir_of base_dir ads_name))
        (neb_rot_dir_of base_dir ads_name)) := by
  simp only [workspace_setup, makedirs_exist_ok_eq]

/-- C1: for every item name and base directory, the executor returns a pair
whose first component is the item name, and any fault raised by the stage
body is caught at the outermost scope, logged with the item's identity and
the fault's message, and converted to `(item_name, none)`. -/
theorem executor_boundary_isolation (env : Env) (ads_name base_dir : String) (fs : FS) :
    (run_adsorbate_pipeline env ads_name base_dir fs).1.1 = ads_name ∧
    ∀ e, (pipeline_body env ads_name base_dir fs).1 = Except.error e →
      (run_adsorbate_pipeline env ads_name base_dir fs).1 = (ads_name, none) ∧
      Event.errorLog ads_name e ∈ (run_adsorbate_pipeline env ads_name base_dir fs).2.2 := by
  rcases h : pipeline_body env ads_name base_dir fs with ⟨res, fs', tra⟩
  cases res with
  | ok tr => simp [run_adsorbate_pipeline, h]
  | error e' => simp [run_adsorbate_pipeline, h]

/-- Witness for C1 at a concrete faulting environment: slab optimization
raises `"boom"`, and the executor returns `("CO", none)` with the fault
logged under the item's identity. -/
theorem executor_boundary_isolation_witness :
    (run_adsorbate_pipeline envFail "CO" "Adsorbates" fs0).1 = ("CO", none) ∧
    Event.errorLog "CO" "boom" ∈ (run_adsorbate_pipeline envFail "CO" "Adsorbates" fs0).2.2 :=
  (executor_boundary_isolation envFail "CO" "Adsorbates" fs0).2 "boom" rfl

/-- C6: the dispatcher invoked with one worker and with one worker per item
produces the same result mapping; the core count feeds only the pool size
(and the progress message), never the aggregation. -/
theorem worker_count_independent (env : Env) (adsorbate_list : List String)
    (base_dir : String) (fs : FS) :
    (run_adsorbate_list_parallel env adsorbate_list base_dir (some 1) fs).1 =
    (run_adsorbate_list_parallel env adsorbate_list base_dir (some adsorbate_list.length) fs).1 := rfl

/-- C7: workspace setup is idempotent — it succeeds on any filesystem state,
and running it a second time for the same item and base directory succeeds
and leaves the directory set unchanged. -/
theorem workspace_setup_idempotent (base_dir ads_name : String) (fs : FS) :
    ∃ fs', workspace_setup base_dir ads_name fs = Except.ok fs' ∧
      workspace_setup base_dir ads_name fs' = Except.ok fs' := by
  refine ⟨_, workspace_setup_eq base_dir ads_name fs, ?_⟩
  rw [workspace_setup_eq]
  have hS : screening_dir_of base_dir ads_name ∈
      (mkdirs_exist_ok (mkdirs_exist_ok (mkdirs_exist_ok fs
        (screening_dir_of base_dir ads_name)) (neb_trans_dir_of base_dir ads_name))
        (neb_rot_dir_of base_dir ads_name)).dirs :=
    mem_mkdirs_of_mem _ (mem_mkdirs_of_mem _ (mem_mkdirs_self fs _))
  rw [mkdirs_of_mem hS]
  have hT : neb_trans_dir_of base_dir ads_name ∈
      (mkdirs_exist_ok (mkdirs_exist_ok (mkdirs_exist_ok fs
        (screening_dir_of base_dir ads_name)) (neb_trans_dir_of base_dir ads_name))
        (neb_rot_dir_of base_dir ads_name)).dirs :=
    mem_mkdirs_of_mem _ (mem_mkdirs_self _ _)
  rw [mkdirs_of_mem hT]
  have hR : neb_rot_dir_of base_dir ads_name ∈
      (mkdirs_exist_ok (mkdirs_exist_ok (mkdirs_exist_ok fs
        (screening_dir_of base_dir ads_name)) (neb_trans_dir_of base_dir ads_name))
        (neb_rot_dir_of base_dir ads_name)).dirs :=
    mem_mkdirs_self _ _
  rw [mkdirs_of_mem hR]


def ConsumesLoaded (srL : ScreeningResults) : Event → Prop
  | Event.bestSiteCall sr => sr = srL
  | Event.selectTransCall _ sr => sr = srL
  | Event.selectRotCall _ sr _ => sr = srL
  | _ => True

def PathSearchConfigured (ads_name base_dir : String) : Event → Prop
  | Event.prepareCall ni k w =>
      ni = 10 ∧ w = (match k with
        | BarrierKind.translation => neb_trans_dir_of base_dir ads_name
        | BarrierKind.rotation => neb_rot_dir_of base_dir ads_name)
  | Event.selectRotCall _ _ angle => angle = 120
  | _ => True

def CleanDestructiveOnly : Event → Prop
  | Event.cleanCall _ dr => dr = false
  | _ => True

def ScreenExhaustiveOnly : Event → Prop
  | Event.screenCall cx uas _ => cx = "site" ∧ uas = true
  | _ => True

theorem pipeline_body_consumes_loaded (env : Env) (ads_name base_dir : String) (fs : FS)
    (srL : ScreeningResults)
    (hload : ∀ p f, env.load_screening_results p f = Except.ok srL) :
    ∀ res fs2 tra, pipeline_body env ads_name base_dir fs = (res, fs2, tra) →
      ∀ ev ∈ tra, ConsumesLoaded srL ev := by
  intro res fs2 tra h
  unfold pipeline_body at h
  simp only [hload, List.cons_append, List.nil_append, List.append_assoc] at h
  repeat' split at h
  all_goals (simp only [Prod.mk.injEq] at h; obtain ⟨h1, h2, rfl⟩ := h; simp [ConsumesLoaded])

theorem pipeline_body_path_config (env : Env) (ads_name base_dir : String) (fs : FS) :
    ∀ res fs2 tra, pipeline_body env ads_name base_dir fs = (res, fs2, tra) →
      ∀ ev ∈ tra, PathSearchConfigured ads_name base_dir ev := by
  intro res fs2 tra h
  unfold pipeline_body at h
  simp only [List.cons_append, List.nil_append, List.append_assoc] at h
  repeat' split at h
  all_goals (simp only [Prod.mk.injEq] at h; obtain ⟨h1, h2, rfl⟩ := h; simp [PathSearchConfigured])

theorem pipeline_body_clean_destructive (env : Env) (ads_name base_dir : String) (fs : FS) :
    ∀ res fs2 tra, pipeline_body env ads_name base_dir fs = (res, fs2, tra) →
      ∀ ev ∈ tra, CleanDestructiveOnly ev := by
  intro res fs2 tra h
  unfold pipeline_body at h
  simp only [List.cons_append, List.nil_append, List.append_assoc] at h
  repeat' split at h
  all_goals (simp only [Prod.mk.injEq] at h; obtain ⟨h1, h2, rfl⟩ := h; simp [CleanDestructiveOnly])

theorem pipeline_body_screen_exhaustive (env : Env) (ads_name base_dir : String) (fs : FS) :
    ∀ res fs2 tra, pipeline_body env ads_name base_dir fs = (res, fs2, tra) →
      ∀ ev ∈ tra, ScreenExhaustiveOnly ev := by
  intro res fs2 tra h
  unfold pipeline_body at h
  simp only [List.cons_append, List.nil_append, List.append_assoc] at h
  repeat' split at h
  all_goals (simp only [Prod.mk.injEq] at h; obtain ⟨h1, h2, rfl⟩ := h; simp [ScreenExhaustiveOnly])

theorem run_trace_cases (env : Env) (ads_name base_dir : String) (fs : FS) (P : Event → Prop)
    (hbody : ∀ res fs2 tra, pipeline_body env ads_name base_dir fs = (res, fs2, tra) →
      ∀ ev ∈ tra, P ev)
    (herr : ∀ m, P (Event.errorLog ads_name m)) :
    ∀ ev ∈ (run_adsorbate_pipeline env ads_name base_dir fs).2.2, P ev := by
  intro ev hev
  unfold run_adsorbate_pipeline at hev
  rcases h : pipeline_body env ads_name base_dir fs with ⟨res, fs2, tra⟩
  rw [h] at hev
  cases res with
  | ok tr =>
      dsimp only at hev
      exact hbody _ _ _ h ev hev
  | error e =>
      dsimp only at hev
      rw [List.mem_append] at hev
      rcases hev with hev | hev
      · exact hbody _ _ _ h ev hev
      · rw [List.mem_singleton] at hev
        subst hev
        exact herr e

theorem pipeline_body_ok_trace (env : Env) (ads_name base_dir : String) (fs : FS) :
    ∀ tr fs2 tra, pipeline_body env ads_name base_dir fs = (Except.ok tr, fs2, tra) →
      Event.prepareCall 10 BarrierKind.translation (neb_trans_dir_of base_dir ads_name) ∈ tra ∧
      Event.prepareCall 10 BarrierKind.rotation (neb_rot_dir_of base_dir ads_name) ∈ tra := by
  intro tr fs2 tra h
  unfold pipeline_body at h
  simp only [List.cons_append, List.nil_append, List.append_assoc] at h
  repeat' split at h
  all_goals (simp only [Prod.mk.injEq] at h; obtain ⟨h1, h2, rfl⟩ := h)
  all_goals simp_all

theorem pipeline_body_rot_fault (env : Env) (ads_name base_dir : String) (fs : FS)
    (hrot : ∀ e1 e2 ni w f x,
      env.prepare_neb_calculation e1 e2 ni BarrierKind.rotation w f ≠ Except.ok x) :
    ∀ tr fs2 tra, pipeline_body env ads_name base_dir fs ≠ (Except.ok tr, fs2, tra) := by
  intro tr fs2 tra h
  unfold pipeline_body at h
  simp only [List.cons_append, List.nil_append, List.append_assoc] at h
  repeat' split at h
  all_goals (simp only [Prod.mk.injEq] at h; obtain ⟨h1, h2, rfl⟩ := h)
  all_goals simp_all [hrot]


/-- C4: the ScreeningResults consumed by best-site selection and by both
endpoint-selection stages is always the object returned by the reload from
the canonical persisted file after validate/clean/recover, never the raw
in-memory object returned by the screening stage. -/
theorem reload_freshness (env : Env) (ads_name base_dir : String) (fs : FS)
    (srL : ScreeningResults)
    (hload : ∀ p f, env.load_screening_results p f = Except.ok srL) :
    ∀ ev ∈ (run_adsorbate_pipeline env ads_name base_dir fs).2.2, ConsumesLoaded srL ev :=
  run_trace_cases env ads_name base_dir fs (ConsumesLoaded srL)
    (pipeline_body_consumes_loaded env ads_name base_dir fs srL hload)
    (fun _ => trivial)

/-- Witness for C4: in `envOk` the screening stage returns `⟨1⟩` but the
reload returns `⟨2⟩`; best-site selection receives `⟨2⟩`. -/
theorem reload_freshness_witness : ConsumesLoaded ⟨2⟩ (Event.bestSiteCall ⟨2⟩) :=
  reload_freshness envOk "CO" "Adsorbates" fs0 ⟨2⟩ (fun _ _ => rfl)
    (Event.bestSiteCall ⟨2⟩) (by decide)

/-- C8: every path-search invocation uses the configured image count 10 and
its own workspace subdirectory according to its barrier kind, and every
rotation endpoint selection uses the configured angular offset 120. -/
theorem path_search_configured (env : Env) (ads_name base_dir : String) (fs : FS) :
    ∀ ev ∈ (run_adsorbate_pipeline env ads_name base_dir fs).2.2,
      PathSearchConfigured ads_name base_dir ev :=
  run_trace_cases env ads_name base_dir fs (PathSearchConfigured ads_name base_dir)
    (pipeline_body_path_config env ads_name base_dir fs) (fun _ => trivial)

/-- Witness for C8 at a concrete successful run. -/
theorem path_search_configured_witness :
    PathSearchConfigured "CO" "Adsorbates"
      (Event.prepareCall 10 BarrierKind.translation (neb_trans_dir_of "Adsorbates" "CO")) :=
  path_search_configured envOk "CO" "Adsorbates" fs0
    (Event.prepareCall 10 BarrierKind.translation (neb_trans_dir_of "Adsorbates" "CO"))
    (by decide)

/-- C9: the cleaning stage is always invoked in destructive (non-dry-run)
mode: every `clean_incomplete_files` call in any run carries `dry_run = False`. -/
theorem clean_always_destructive (env : Env) (ads_name base_dir : String) (fs : FS) :
    ∀ ev ∈ (run_adsorbate_pipeline env ads_name base_dir fs).2.2, CleanDestructiveOnly ev :=
  run_trace_cases env ads_name base_dir fs CleanDestructiveOnly
    (pipeline_body_clean_destructive env ads_name base_dir fs) (fun _ => trivial)

/-- Witness for C9 at a concrete successful run. -/
theorem clean_always_destructive_witness :
    CleanDestructiveOnly (Event.cleanCall (screening_dir_of "Adsorbates" "CO") false) :=
  clean_always_destructive envOk "CO" "Adsorbates" fs0
    (Event.cleanCall (screening_dir_of "Adsorbates" "CO") false) (by decide)

/-- C10: the site-screening stage is always invoked in exhaustive mode with
`use_all_sites=True` and `center_xy="site"`. -/
theorem screening_always_exhaustive (env : Env) (ads_name base_dir : String) (fs : FS) :
    ∀ ev ∈ (run_adsorbate_pipeline env ads_name base_dir fs).2.2, ScreenExhaustiveOnly ev :=
  run_trace_cases env ads_name base_dir fs ScreenExhaustiveOnly
    (pipeline_body_screen_exhaustive env ads_name base_dir fs) (fun _ => trivial)

/-- Witness for C10 at a concrete successful run. -/
theorem screening_always_exhaustive_witness :
    ScreenExhaustiveOnly (Event.screenCall "site" true (screening_dir_of "Adsorbates" "CO")) :=
  screening_always_exhaustive envOk "CO" "Adsorbates" fs0
    (Event.screenCall "site" true (screening_dir_of "Adsorbates" "CO")) (by decide)

/-- C3: a TaskResult is all-or-nothing.  If the executor returns a present
result, both the translation and the rotation path-search sub-pipelines were
invoked (and the result type carries both barriers); if the rotation
path-search invocation raises, the whole item is converted to absent even
though the translation sub-pipeline succeeded — no partial result is
surfaced. -/
theorem task_result_all_or_nothing (env : Env) (ads_name base_dir : String) (fs : FS) :
    (∀ tr, (run_adsorbate_pipeline env ads_name base_dir fs).1.2 = some tr →
      Event.prepareCall 10 BarrierKind.translation (neb_trans_dir_of base_dir ads_name)
          ∈ (run_adsorbate_pipeline env ads_name base_dir fs).2.2 ∧
      Event.prepareCall 10 BarrierKind.rotation (neb_rot_dir_of base_dir ads_name)
          ∈ (run_adsorbate_pipeline env ads_name base_dir fs).2.2) ∧
    ((∀ e1 e2 ni w f x,
        env.prepare_neb_calculation e1 e2 ni BarrierKind.rotation w f ≠ Except.ok x) →
      (run_adsorbate_pipeline env ads_name base_dir fs).1.2 = none) := by
  constructor
  · intro tr htr
    unfold run_adsorbate_pipeline at htr ⊢
    rcases h : pipeline_body env ads_name base_dir fs with ⟨res, fs2, tra⟩
    rw [h] at htr
    cases res with
    | ok tr2 =>
        dsimp only
        exact pipeline_body_ok_trace env ads_name base_dir fs tr2 fs2 tra h
    | error e => exact Option.noConfusion htr
  · intro hrot
    unfold run_adsorbate_pipeline
    rcases h : pipeline_body env ads_name base_dir fs with ⟨res, fs2, tra⟩
    cases res with
    | ok tr2 =>
        exact absurd h (pipeline_body_rot_fault env ads_name base_dir fs hrot tr2 fs2 tra)
    | error e => rfl

/-- Witness for C3: with every collaborator succeeding, both path-search
invocations appear in the trace; with the rotation path search raising after
a successful translation path search, the item's result is absent. -/
theorem task_result_all_or_nothing_witness :
    (Event.prepareCall 10 BarrierKind.translation (neb_trans_dir_of "Adsorbates" "CO")
        ∈ (run_adsorbate_pipeline envOk "CO" "Adsorbates" fs0).2.2 ∧
     Event.prepareCall 10 BarrierKind.rotation (neb_rot_dir_of "Adsorbates" "CO")
        ∈ (run_adsorbate_pipeline envOk "CO" "Adsorbates" fs0).2.2) ∧
    (run_adsorbate_pipeline envRotFail "CO" "Adsorbates" fs0).1.2 = none :=
  ⟨(task_result_all_or_nothing envOk "CO" "Adsorbates" fs0).1 ⟨⟨10⟩, ⟨20⟩⟩ (by decide),
   (task_result_all_or_nothing envRotFail "CO" "Adsorbates" fs0).2
     (fun _ _ _ _ _ _ h => Except.noConfusion h)⟩


theorem dictInsert_of_notKey {α : Type} {m : List (String × α)} {k : String} (v : α)
    (h : k ∉ m.map Prod.fst) : dictInsert m k v = m ++ [(k, v)] := by
  induction m with
  | nil => rfl
  | cons p rest ih =>
      simp only [List.map_cons, List.mem_cons, not_or] at h
      unfold dictInsert
      rw [if_neg (fun hc => h.1 hc.symm)]
      rw [ih h.2]
      rfl

theorem foldl_dictInsert_nodup {α : Type} :
    ∀ (ps acc : List (String × α)), ((acc ++ ps).map Prod.fst).Nodup →
      ps.foldl (fun m p => dictInsert m p.1 p.2) acc = acc ++ ps := by
  intro ps
  induction ps with
  | nil => intro acc _; simp
  | cons p rest ih =>
      intro acc h
      have hkey : p.1 ∉ acc.map Prod.fst := by
        intro hmem
        have hd := List.disjoint_of_nodup_append (by simpa [List.map_append] using h)
        exact hd hmem (by simp)
      have step : dictInsert acc p.1 p.2 = acc ++ [p] := by
        rw [dictInsert_of_notKey _ hkey]
      calc (p :: rest).foldl (fun m q => dictInsert m q.1 q.2) acc
          = rest.foldl (fun m q => dictInsert m q.1 q.2) (acc ++ [p]) := by
            rw [List.foldl_cons, step]
        _ = (acc ++ [p]) ++ rest := ih (acc ++ [p]) (by simpa [List.append_assoc] using h)
        _ = acc ++ p :: rest := by simp

theorem aggregate_nodup {α : Type} (ps : List (String × α)) (h : (ps.map Prod.fst).Nodup) :
    aggregate ps = ps := by
  have := foldl_dictInsert_nodup ps [] (by simpa using h)
  simpa [aggregate] using this

theorem lookupKey_pairs {α : Type} (g : String → α) :
    ∀ (l : List String) (a : String), l.Nodup → a ∈ l →
      lookupKey (l.map (fun x => (x, g x))) a = some (g a) := by
  intro l
  induction l with
  | nil => intro a _ ha; cases ha
  | cons b rest ih =>
      intro a hnd ha
      rcases List.mem_cons.mp ha with rfl | ha2
      · simp [lookupKey]
      · have hb : b ≠ a := by
          rintro rfl
          exact (List.nodup_cons.mp hnd).1 ha2
        simp only [List.map_cons, lookupKey, hb, if_false]
        exact ih a (List.nodup_cons.mp hnd).2 ha2

theorem run_pipeline_pair (env : Env) (a d : String) (f : FS) :
    (run_adsorbate_pipeline env a d f).1 = (a, (run_adsorbate_pipeline env a d f).1.2) := by
  unfold run_adsorbate_pipeline
  rcases pipeline_body env a d f with ⟨res, fs2, tra⟩
  cases res <;> rfl

theorem dispatch_pairs (env : Env) (l : List String) (d : String) (cores : Option Nat) (f : FS) :
    (run_adsorbate_list_parallel env l d cores f).1 =
      aggregate (l.map (fun a =>
        (a, (run_adsorbate_pipeline env a d (mkdirs_exist_ok f d)).1.2))) := by
  unfold run_adsorbate_list_parallel
  dsimp only
  rw [List.map_map]
  congr 1
  apply List.map_congr_left
  intro a _
  exact run_pipeline_pair env a d (mkdirs_exist_ok f d)

/-- C2: for a non-empty duplicate-free input list, the dispatcher returns a
mapping whose keys are exactly the input names, and every input name maps to
its pipeline outcome — a failed item is present with the absent sentinel
(`none`) rather than omitted. -/
theorem dispatch_key_set_complete (env : Env) (l : List String) (d : String)
    (cores : Option Nat) (f : FS) (hne : l ≠ []) (hnd : l.Nodup) :
    ((run_adsorbate_list_parallel env l d cores f).1.map Prod.fst = l) ∧
    ∀ a ∈ l, lookupKey (run_adsorbate_list_parallel env l d cores f).1 a =
      some ((run_adsorbate_pipeline env a d (mkdirs_exist_ok f d)).1.2) := by
  have hpairs := dispatch_pairs env l d cores f
  have hkeys : ((l.map (fun a =>
      (a, (run_adsorbate_pipeline env a d (mkdirs_exist_ok f d)).1.2))).map Prod.fst) = l := by
    rw [List.map_map]
    exact List.map_id l
  have hagg : aggregate (l.map (fun a =>
        (a, (run_adsorbate_pipeline env a d (mkdirs_exist_ok f d)).1.2))) =
      l.map (fun a => (a, (run_adsorbate_pipeline env a d (mkdirs_exist_ok f d)).1.2)) :=
    aggregate_nodup _ (by rw [hkeys]; exact hnd)
  constructor
  · rw [hpairs, hagg, hkeys]
  · intro a ha
    rw [hpairs, hagg]
    exact lookupKey_pairs _ l a hnd ha

/-- Witness for C2 on the concrete list `["X1", "X2"]` with every
collaborator succeeding. -/
theorem dispatch_key_set_complete_witness :
    ((run_adsorbate_list_parallel envOk ["X1", "X2"] "Adsorbates" (some 2) fs0).1.map
        Prod.fst = ["X1", "X2"]) ∧
    ∀ a ∈ ["X1", "X2"],
      lookupKey (run_adsorbate_list_parallel envOk ["X1", "X2"] "Adsorbates" (some 2) fs0).1 a =
        some ((run_adsorbate_pipeline envOk a "Adsorbates"
          (mkdirs_exist_ok fs0 "Adsorbates")).1.2) :=
  dispatch_key_set_complete envOk ["X1", "X2"] "Adsorbates" (some 2) fs0
    (by decide) (by decide)


theorem lookupKey_dictInsert_self {α : Type} (m : List (String × α)) (k : String) (v : α) :
    lookupKey (dictInsert m k v) k = some v := by
  induction m with
  | nil => simp [dictInsert, lookupKey]
  | cons p rest ih =>
      unfold dictInsert
      by_cases hp : p.1 = k
      · simp [hp, lookupKey]
      · simp [hp, lookupKey, ih]

theorem lookupKey_dictInsert_ne {α : Type} (m : List (String × α)) {k q : String} (v : α)
    (h : k ≠ q) : lookupKey (dictInsert m k v) q = lookupKey m q := by
  induction m with
  | nil => simp [dictInsert, lookupKey, h]
  | cons p rest ih =>
      unfold dictInsert
      by_cases hp : p.1 = k
      · simp [hp, lookupKey, h]
      · simp [hp, lookupKey, ih]

theorem aggregate_concat {α : Type} (ps : List (String × α)) (p : String × α) :
    aggregate (ps ++ [p]) = dictInsert (aggregate ps) p.1 p.2 := by
  simp [aggregate, List.foldl_append]

theorem lookupKey_aggregate_last {α : Type} (ps : List (String × α)) (k : String) :
    lookupKey (aggregate ps) k =
      Option.map Prod.snd (ps.reverse.find? (fun p => decide (p.1 = k))) := by
  induction ps using List.reverseRecOn with
  | nil => rfl
  | append_singleton ps p ih =>
      rw [aggregate_concat, List.reverse_append]
      by_cases hp : p.1 = k
      · subst hp
        rw [lookupKey_dictInsert_self]
        simp [List.find?]
      · rw [lookupKey_dictInsert_ne _ _ hp]
        simp only [List.reverse_singleton, List.singleton_append, List.find?]
        rw [ih]
        have hd : (decide (p.1 = k)) = false := by simp [hp]
        rw [hd]
        simp

/-- C5: the dispatcher reduces the returned `(name, result)` pairs by
iterating them in order and inserting each into the mapping; consequently
looking up a key in the aggregated mapping yields the value of the LAST
pair carrying that key, so a later duplicate name's result overwrites an
earlier one's. -/
theorem duplicate_names_last_write_wins (env : Env) (l : List String) (d : String)
    (cores : Option Nat) (f : FS) :
    ((run_adsorbate_list_parallel env l d cores f).1 =
      aggregate (l.map (fun a => (run_adsorbate_pipeline env a d (mkdirs_exist_ok f d)).1))) ∧
    ∀ (ps : List (String × Option TaskResult)) (k : String),
      lookupKey (aggregate ps) k =
        Option.map Prod.snd (ps.reverse.find? (fun p => decide (p.1 = k))) := by
  constructor
  · unfold run_adsorbate_list_parallel
    dsimp only
    rw [List.map_map]
    rfl
  · intro ps k
    exact lookupKey_aggregate_last ps k
